import Mathlib

/-!
# Passbolt Terraform provider: embedding of the lifecycle callbacks

Shallow embedding of `internal/model/password_and_description_model.go`,
`internal/provider/password_and_description_resource.go`,
`internal/provider/password_and_decription_data_source.go` and
`internal/provider/provider.go`.

Go strings are Lean strings (Terraform strings are valid UTF-8).  A Go `error`
is represented by its message (`err.Error()`), `err != nil` by `Except.error`.
The external service behind `*api.Client` is a record of functions; every
callback also returns the list of external calls it made, in order.
-/

namespace Passbolt

/-! ## Library functions the callbacks call on their values -/

/-- Go `strconv`: `const lowerhex = "0123456789abcdef"`. -/
def lowerhex : List Char := "0123456789abcdef".toList

/-- Indexing `lowerhex[n]` for a nibble `n`. -/
def hexDigit (n : Nat) : Char := lowerhex.getD (n % 16) '0'

/-- The double quote rune, U+0022. -/
def quoteRune : Char := Char.ofNat 0x22

/-- The backslash rune, U+005C. -/
def backslash : Char := Char.ofNat 0x5C

/-- Go `strconv.IsPrint`.  The Latin-1 fast path is written out as in the
library; the Unicode range tables consulted for runes above U+00FF are not part
of this repository and are the parameter `wide`. -/
def IsPrint (wide : Char → Bool) (r : Char) : Bool :=
  if r.toNat ≤ 0xFF then
    if 0x20 ≤ r.toNat ∧ r.toNat ≤ 0x7E then true
    else if 0xA1 ≤ r.toNat ∧ r.toNat ≤ 0xFF then r.toNat != 0xAD
    else false
  else wide r

/-- Go `strconv.appendEscapedRune` with the double quote as `quote`,
`ASCIIonly = false` and `graphicOnly = false`, returning the appended
characters.  A Lean `Char` is a valid rune, so the replacement of invalid runes
by U+FFFD does not arise. -/
def appendEscapedRune (wide : Char → Bool) (r : Char) : List Char :=
  if r = quoteRune ∨ r = backslash then [backslash, r]
  else if IsPrint wide r then [r]
  else if r.toNat = 0x07 then [backslash, 'a']
  else if r.toNat = 0x08 then [backslash, 'b']
  else if r.toNat = 0x0C then [backslash, 'f']
  else if r.toNat = 0x0A then [backslash, 'n']
  else if r.toNat = 0x0D then [backslash, 'r']
  else if r.toNat = 0x09 then [backslash, 't']
  else if r.toNat = 0x0B then [backslash, 'v']
  else if r.toNat < 0x20 ∨ r.toNat = 0x7F then
    [backslash, 'x', hexDigit (r.toNat / 16), hexDigit r.toNat]
  else if r.toNat < 0x10000 then
    [backslash, 'u', hexDigit (r.toNat / 4096), hexDigit (r.toNat / 256),
      hexDigit (r.toNat / 16), hexDigit r.toNat]
  else
    [backslash, 'U', hexDigit (r.toNat / 268435456), hexDigit (r.toNat / 16777216),
      hexDigit (r.toNat / 1048576), hexDigit (r.toNat / 65536),
      hexDigit (r.toNat / 4096), hexDigit (r.toNat / 256),
      hexDigit (r.toNat / 16), hexDigit r.toNat]

/-- The loop of Go `strconv.appendQuotedWith` over the runes of the string. -/
def appendQuotedBody (wide : Char → Bool) : List Char → List Char
  | [] => []
  | r :: rest => appendEscapedRune wide r ++ appendQuotedBody wide rest

/-- Go `strconv.Quote`, which is what `fmt.Sprintf("%q", s)` prints for a
string: a double-quoted Go string literal. -/
def Quote (wide : Char → Bool) (s : String) : String :=
  String.mk (quoteRune :: appendQuotedBody wide s.data ++ [quoteRune])

/-- Terraform plugin framework `types.String`: null, unknown, or a known
value. -/
inductive TfString where
  | null : TfString
  | unknown : TfString
  | known (value : String) : TfString
  deriving DecidableEq, Repr

/-- Framework `types.StringValue(value)`: a known string. -/
def StringValue (value : String) : TfString := TfString.known value

/-- Framework `attr.UnknownValueString`. -/
def UnknownValueString : String := "<unknown>"

/-- Framework `attr.NullValueString`. -/
def NullValueString : String := "<null>"

/-- Framework `func (s StringValue) String() string`, the method the callbacks
call as `data.X.String()`.  It is the human-readable representation meant for
logging and error reporting (the value itself is returned by `ValueString`):
`attr.UnknownValueString` for an unknown value, `attr.NullValueString` for
null, and `fmt.Sprintf("%q", s.value)` for a known value. -/
def TfString.String (wide : Char → Bool) (s : TfString) : String :=
  match s with
  | TfString.unknown => UnknownValueString
  | TfString.null => NullValueString
  | TfString.known value => Quote wide value

/-! ## Framework diagnostics -/

/-- Framework `diag.Severity`. -/
inductive Severity where
  | Error : Severity
  | Warning : Severity
  deriving DecidableEq, Repr

/-- Framework `diag.Diagnostic`: severity, summary and detail. -/
structure Diagnostic where
  Severity : Severity
  Summary : String
  Detail : String
  deriving DecidableEq, Repr

/-- Framework `diag.Diagnostics`, a slice of diagnostics. -/
abbrev Diagnostics := List Diagnostic

/-- Framework `Diagnostics.HasError`: some element has error severity. -/
def HasError (diags : Diagnostics) : Bool :=
  diags.any (fun d => decide (d.Severity = Severity.Error))

/-- Framework `Diagnostics.Contains`: some element equals the given one. -/
def Contains (diags : Diagnostics) (d : Diagnostic) : Bool :=
  diags.any (fun x => decide (x = d))

/-- Framework `Diagnostics.Append`: adds each non-duplicate diagnostic, in
order. -/
def Append (diags : Diagnostics) : List Diagnostic → Diagnostics
  | [] => diags
  | d :: rest => if Contains diags d then Append diags rest else Append (diags ++ [d]) rest

/-- Framework `Diagnostics.AddError(summary, detail)`:
`diags.Append(NewErrorDiagnostic(summary, detail))`. -/
def AddError (diags : Diagnostics) (summary detail : String) : Diagnostics :=
  Append diags [{ Severity := Severity.Error, Summary := summary, Detail := detail }]

/-! ## Data model (`internal/model`) -/

/-- The Go struct `model.PasswordAndDescriptionResourceModel`. -/
structure PasswordAndDescriptionResourceModel where
  Name : TfString
  FolderParentId : TfString
  Username : TfString
  URI : TfString
  Password : TfString
  Description : TfString
  Id : TfString
  deriving DecidableEq, Repr

/-! ## The external client and the record of calls made on it -/

/-- The six values `helper.GetResource` returns next to a nil error, in its
order: folderParentID, name, username, uri, password, description. -/
structure GetResult where
  folderParentID : String
  name : String
  username : String
  uri : String
  password : String
  description : String
  deriving DecidableEq, Repr

/-- The `*api.Client` together with the service behind it: what each external
function answers for given arguments (`Except.error msg` is a non-nil error
whose message is `msg`). -/
structure Client where
  CreateResource : String → String → String → String → String → String → Except String String
  GetResource : String → Except String GetResult
  UpdateResource : String → String → String → String → String → String → Except String Unit
  DeleteResource : String → Except String Unit

/-- An external call with the arguments it received. -/
inductive Call where
  | CreateResource (folderParentID name username uri password description : String) : Call
  | GetResource (resourceID : String) : Call
  | UpdateResource (resourceID name username uri password description : String) : Call
  | DeleteResource (resourceID : String) : Call
  | NewClient (userAgent baseURL privateKey password : String) : Call
  deriving DecidableEq, Repr

/-- One entry of the call record: the call and the error it returned, if
any. -/
structure CallRecord where
  call : Call
  err : Option String
  deriving DecidableEq, Repr

/-- The error component of a result: `some msg` for a non-nil error. -/
def errOf {α : Type} : Except String α → Option String
  | Except.error e => some e
  | Except.ok _ => none

/-! ## Requests and responses -/

/-- Framework `tfsdk.Plan` of a request; `Get` decodes it into the model.  The
schema declared in `Schema` lists exactly the seven string attributes named by
the struct's `tfsdk` tags, and a `types.String` field holds null and unknown
values as well, so the decoding reports no diagnostics. -/
structure Plan where
  Raw : PasswordAndDescriptionResourceModel
  deriving DecidableEq, Repr

/-- Framework `tfsdk.Config` of a data-source read request. -/
structure Config where
  Raw : PasswordAndDescriptionResourceModel
  deriving DecidableEq, Repr

/-- Framework `tfsdk.State`; `none` is the null state (nothing stored). -/
structure State where
  Raw : Option PasswordAndDescriptionResourceModel
  deriving DecidableEq, Repr

/-- The call `req.Plan.Get(ctx, &data)`: the diagnostics and the decoded
model. -/
def Plan.Get (p : Plan) : Diagnostics × PasswordAndDescriptionResourceModel := ([], p.Raw)

/-- The call `req.Config.Get(ctx, &data)`. -/
def Config.Get (c : Config) : Diagnostics × PasswordAndDescriptionResourceModel := ([], c.Raw)

/-- The call `resp.State.Set(ctx, &data)`: the diagnostics and the new
state.  Encoding the seven `types.String` fields under the matching schema
reports no diagnostics. -/
def State.Set (_s : State) (data : PasswordAndDescriptionResourceModel) : Diagnostics × State :=
  ([], { Raw := some data })

/-- Requests of Create and Update carry the plan. -/
structure PlanRequest where
  Plan : Plan
  deriving DecidableEq, Repr

/-- Requests of resource Read and Delete carry the prior state, which exists
(the framework calls them only for a stored resource). -/
structure StateRequest where
  State : PasswordAndDescriptionResourceModel
  deriving DecidableEq, Repr

/-- The call `req.State.Get(ctx, &data)` on a request's prior state. -/
def StateRequest.Get (r : StateRequest) : Diagnostics × PasswordAndDescriptionResourceModel :=
  ([], r.State)

/-- Request of the data-source Read carries the configuration. -/
structure ConfigRequest where
  Config : Config
  deriving DecidableEq, Repr

/-- The fields of `resource.CreateResponse`, `ReadResponse`, `UpdateResponse`,
`DeleteResponse` and `datasource.ReadResponse` that the callbacks touch. -/
structure Response where
  Diagnostics : Diagnostics
  State : State
  deriving DecidableEq, Repr

/-! ## The resource (`password_and_description_resource.go`) -/

/-- The Go struct `PasswordAndDescriptionResource`, holding the configured
client. -/
structure PasswordAndDescriptionResource where
  client : Client

/-- The method `Refresh(ctx, data)`: returns the model and the error, with the
calls made. -/
def PasswordAndDescriptionResource.Refresh (wide : Char → Bool)
    (r : PasswordAndDescriptionResource) (data : PasswordAndDescriptionResourceModel) :
    (PasswordAndDescriptionResourceModel × Option String) × List CallRecord :=
  match r.client.GetResource (data.Id.String wide) with
  | Except.error err =>
    ((data, some err), [{ call := Call.GetResource (data.Id.String wide), err := some err }])
  | Except.ok res =>
    (({ data with
          FolderParentId := StringValue res.folderParentID
          Name := StringValue res.name
          Username := StringValue res.username
          URI := StringValue res.uri
          Password := StringValue res.password
          Description := StringValue res.description }, none),
      [{ call := Call.GetResource (data.Id.String wide), err := none }])

/-- The callback `Create(ctx, req, resp)`; the `tflog.Trace` line only logs. -/
def PasswordAndDescriptionResource.Create (wide : Char → Bool)
    (r : PasswordAndDescriptionResource) (req : PlanRequest) (resp : Response) :
    Response × List CallRecord :=
  let got := req.Plan.Get
  let data := got.2
  let resp := { resp with Diagnostics := Append resp.Diagnostics got.1 }
  if HasError resp.Diagnostics then (resp, [])
  else
    let call := Call.CreateResource (data.FolderParentId.String wide) (data.Name.String wide)
      (data.Username.String wide) (data.URI.String wide) (data.Password.String wide)
      (data.Description.String wide)
    match r.client.CreateResource (data.FolderParentId.String wide) (data.Name.String wide)
      (data.Username.String wide) (data.URI.String wide) (data.Password.String wide)
      (data.Description.String wide) with
    | Except.error err =>
      ({ resp with Diagnostics := (AddError resp.Diagnostics
          ("API Error when creating " ++ data.Name.String wide ++
            " password-and-description resource") err) },
        [{ call := call, err := some err }])
    | Except.ok id =>
      let data := { data with Id := StringValue id }
      let refreshed := r.Refresh wide data
      let data := refreshed.1.1
      match refreshed.1.2 with
      | some err =>
        ({ resp with Diagnostics := (AddError resp.Diagnostics
            ("API Error when refreshing " ++ data.Name.String wide ++
              " password-and-description resource with id " ++ data.Id.String wide ++
              " just after creation") err) },
          { call := call, err := none } :: refreshed.2)
      | none =>
        let set := resp.State.Set data
        ({ Diagnostics := Append resp.Diagnostics set.1, State := set.2 },
          { call := call, err := none } :: refreshed.2)

/-- The callback `Read(ctx, req, resp)` of the resource. -/
def PasswordAndDescriptionResource.Read (wide : Char → Bool)
    (r : PasswordAndDescriptionResource) (req : StateRequest) (resp : Response) :
    Response × List CallRecord :=
  let got := req.Get
  let data := got.2
  let resp := { resp with Diagnostics := Append resp.Diagnostics got.1 }
  if HasError resp.Diagnostics then (resp, [])
  else
    let refreshed := r.Refresh wide data
    let data := refreshed.1.1
    match refreshed.1.2 with
    | some err =>
      ({ resp with Diagnostics := (AddError resp.Diagnostics
          ("API Error when reading password-and-description resource with id " ++
            data.Id.String wide) err) },
        refreshed.2)
    | none =>
      let set := resp.State.Set data
      ({ Diagnostics := Append resp.Diagnostics set.1, State := set.2 }, refreshed.2)

/-- The callback `Update(ctx, req, resp)`. -/
def PasswordAndDescriptionResource.Update (wide : Char → Bool)
    (r : PasswordAndDescriptionResource) (req : PlanRequest) (resp : Response) :
    Response × List CallRecord :=
  let got := req.Plan.Get
  let data := got.2
  let resp := { resp with Diagnostics := Append resp.Diagnostics got.1 }
  if HasError resp.Diagnostics then (resp, [])
  else
    let call := Call.UpdateResource (data.Id.String wide) (data.Name.String wide)
      (data.Username.String wide) (data.URI.String wide) (data.Password.String wide)
      (data.Description.String wide)
    match r.client.UpdateResource (data.Id.String wide) (data.Name.String wide)
      (data.Username.String wide) (data.URI.String wide) (data.Password.String wide)
      (data.Description.String wide) with
    | Except.error err =>
      ({ resp with Diagnostics := (AddError resp.Diagnostics
          ("API Error when updating " ++ data.Name.String wide ++
            " password-and-description resource with id " ++ data.Id.String wide) err) },
        [{ call := call, err := some err }])
    | Except.ok _ =>
      let refreshed := r.Refresh wide data
      let data := refreshed.1.1
      match refreshed.1.2 with
      | some err =>
        ({ resp with Diagnostics := (AddError resp.Diagnostics
            ("API Error when refreshing " ++ data.Name.String wide ++
              " password-and-description resource with id " ++ data.Id.String wide ++
              " just after update") err) },
          { call := call, err := none } :: refreshed.2)
      | none =>
        let set := resp.State.Set data
        ({ Diagnostics := Append resp.Diagnostics set.1, State := set.2 },
          { call := call, err := none } :: refreshed.2)

/-- The callback `Delete(ctx, req, resp)`. -/
def PasswordAndDescriptionResource.Delete (wide : Char → Bool)
    (r : PasswordAndDescriptionResource) (req : StateRequest) (resp : Response) :
    Response × List CallRecord :=
  let got := req.Get
  let data := got.2
  let resp := { resp with Diagnostics := Append resp.Diagnostics got.1 }
  if HasError resp.Diagnostics then (resp, [])
  else
    match r.client.DeleteResource (data.Id.String wide) with
    | Except.error err =>
      ({ resp with Diagnostics := (AddError resp.Diagnostics
          ("API Error when deleting " ++ data.Name.String wide ++
            " password-and-description resource with id " ++ data.Id.String wide) err) },
        [{ call := Call.DeleteResource (data.Id.String wide), err := some err }])
    | Except.ok _ =>
      (resp, [{ call := Call.DeleteResource (data.Id.String wide), err := none }])

/-! ## The data source (`password_and_decription_data_source.go`) -/

/-- The Go struct `PasswordAndDescriptionDataSource`. -/
structure PasswordAndDescriptionDataSource where
  client : Client

/-- The callback `Read(ctx, req, resp)` of the data source. -/
def PasswordAndDescriptionDataSource.Read (wide : Char → Bool)
    (d : PasswordAndDescriptionDataSource) (req : ConfigRequest) (resp : Response) :
    Response × List CallRecord :=
  let got := req.Config.Get
  let data := got.2
  let resp := { resp with Diagnostics := Append resp.Diagnostics got.1 }
  if HasError resp.Diagnostics then (resp, [])
  else
    match d.client.GetResource (data.Id.String wide) with
    | Except.error err =>
      ({ resp with Diagnostics := (AddError resp.Diagnostics
          ("API Error when reading password-and-description resource with id " ++
            data.Id.String wide) err) },
        [{ call := Call.GetResource (data.Id.String wide), err := some err }])
    | Except.ok res =>
      let data := { data with
        FolderParentId := StringValue res.folderParentID
        Name := StringValue res.name
        Username := StringValue res.username
        URI := StringValue res.uri
        Password := StringValue res.password
        Description := StringValue res.description }
      let set := resp.State.Set data
      ({ Diagnostics := Append resp.Diagnostics set.1, State := set.2 },
        [{ call := Call.GetResource (data.Id.String wide), err := none }])

/-! ## The provider (`provider.go`) -/

/-- The Go struct `PassboltProvider`. -/
structure PassboltProvider where
  version : String
  deriving DecidableEq, Repr

/-- The Go struct `PassboltProviderModel`. -/
structure PassboltProviderModel where
  Endpoint : TfString
  UserPassword : TfString
  UserPrivateKey : TfString
  deriving DecidableEq, Repr

/-- Request of the provider's Configure; `Config.Get` decodes it into the
provider model without diagnostics. -/
structure ProviderConfigureRequest where
  Config : PassboltProviderModel
  deriving DecidableEq, Repr

/-- The call `req.Config.Get(ctx, &data)` of the provider's Configure. -/
def ProviderConfigureRequest.Get (r : ProviderConfigureRequest) :
    Diagnostics × PassboltProviderModel := ([], r.Config)

/-- The fields of `provider.ConfigureResponse`; `none` is an unset (nil)
value. -/
structure ProviderConfigureResponse where
  Diagnostics : Diagnostics
  DataSourceData : Option Client
  ResourceData : Option Client

/-- The callback `Configure(ctx, req, resp)` of the provider.  The external
constructor `api.NewClient(nil, userAgent, baseURL, privateKey, password)` is
the parameter `NewClient` (its first argument is the constant nil). -/
def PassboltProvider.Configure (wide : Char → Bool)
    (NewClient : String → String → String → String → Except String Client)
    (p : PassboltProvider) (req : ProviderConfigureRequest) (resp : ProviderConfigureResponse) :
    ProviderConfigureResponse × List CallRecord :=
  let got := req.Get
  let data := got.2
  let resp := { resp with Diagnostics := Append resp.Diagnostics got.1 }
  if HasError resp.Diagnostics then (resp, [])
  else
    let call := Call.NewClient ("PassboltTerraformProvider/" ++ p.version)
      (data.Endpoint.String wide) (data.UserPrivateKey.String wide)
      (data.UserPassword.String wide)
    match NewClient ("PassboltTerraformProvider/" ++ p.version)
      (data.Endpoint.String wide) (data.UserPrivateKey.String wide)
      (data.UserPassword.String wide) with
    | Except.error err =>
      ({ resp with Diagnostics := AddError resp.Diagnostics "API Error when creating client" err },
        [{ call := call, err := some err }])
    | Except.ok client =>
      ({ resp with DataSourceData := some client, ResourceData := some client },
        [{ call := call, err := none }])

/-! ## Properties stated over a callback's result -/

/-- Error translation for one callback run that started from the response
`resp` and produced `out`: the resulting diagnostics contain an error exactly
when some external call in the call record returned an error; and for a call
that returned the error `e`, the diagnostics are the initial ones followed by
one error diagnostic whose detail is `e`, and the state is the initial one. -/
def TranslatesErrors (resp : Response) (out : Response × List CallRecord) : Prop :=
  (HasError out.1.Diagnostics = true ↔ ∃ c ∈ out.2, c.err ≠ none) ∧
  (∀ c ∈ out.2, ∀ e, c.err = some e →
    (∃ summary, out.1.Diagnostics =
      resp.Diagnostics ++ [{ Severity := Severity.Error, Summary := summary, Detail := e }]) ∧
    out.1.State = resp.State)

/-- Two models that agree on every field other than password and
description. -/
def SameExceptSecrets (a b : PasswordAndDescriptionResourceModel) : Prop :=
  a.Name = b.Name ∧ a.FolderParentId = b.FolderParentId ∧ a.Username = b.Username ∧
    a.URI = b.URI ∧ a.Id = b.Id

instance (a b : PasswordAndDescriptionResourceModel) : Decidable (SameExceptSecrets a b) := by
  unfold SameExceptSecrets
  infer_instance

/-! ## Concrete inputs used to exercise the definitions -/

/-- A table for `IsPrint` that treats every rune above U+00FF as printable. -/
def allWidePrintable : Char → Bool := fun _ => true

/-- A service that answers every call successfully and creates under the
identifier `0a1b`. -/
def exampleClient : Client where
  CreateResource := fun _ _ _ _ _ _ => Except.ok "0a1b"
  GetResource := fun _ =>
    Except.ok { folderParentID := "folder-1", name := "db", username := "admin",
                uri := "https://db.example", password := "s3cret", description := "notes" }
  UpdateResource := fun _ _ _ _ _ _ => Except.ok ()
  DeleteResource := fun _ => Except.ok ()

/-- A service that refuses every call with the error `boom`. -/
def failingClient : Client where
  CreateResource := fun _ _ _ _ _ _ => Except.error "boom"
  GetResource := fun _ => Except.error "boom"
  UpdateResource := fun _ _ _ _ _ _ => Except.error "boom"
  DeleteResource := fun _ => Except.error "boom"

/-- A service like `exampleClient` whose create call succeeds with an empty
identifier. -/
def emptyIdClient : Client where
  CreateResource := fun _ _ _ _ _ _ => Except.ok ""
  GetResource := exampleClient.GetResource
  UpdateResource := exampleClient.UpdateResource
  DeleteResource := exampleClient.DeleteResource

/-- A plan for a new resource: the six user attributes known, the id not yet
known. -/
def examplePlan : PasswordAndDescriptionResourceModel where
  Name := TfString.known "db"
  FolderParentId := TfString.known "folder-1"
  Username := TfString.known "admin"
  URI := TfString.known "https://db.example"
  Password := TfString.known "s3cret"
  Description := TfString.known "notes"
  Id := TfString.unknown

/-- A stored resource: `examplePlan` with the identifier `0a1b`. -/
def exampleStored : PasswordAndDescriptionResourceModel :=
  { examplePlan with Id := TfString.known "0a1b" }

/-- The stored resource moved to another folder and nothing else changed. -/
def exampleMoved : PasswordAndDescriptionResourceModel :=
  { exampleStored with FolderParentId := TfString.known "folder-2" }

/-- The stored resource with another password and description. -/
def exampleRotated : PasswordAndDescriptionResourceModel :=
  { exampleStored with Password := TfString.known "n3w", Description := TfString.known "rotated" }

/-- A response as the framework hands it to a callback: no diagnostics, null
state. -/
def emptyResponse : Response := { Diagnostics := [], State := { Raw := none } }

/-- A provider configuration with the three credentials known. -/
def exampleProviderConfig : PassboltProviderModel where
  Endpoint := TfString.known "https://passbolt.example"
  UserPassword := TfString.known "hunter2"
  UserPrivateKey := TfString.known "PGP-KEY"

/-- A provider configure response as the framework hands it over: no
diagnostics, nothing published. -/
def emptyProviderResponse : ProviderConfigureResponse :=
  { Diagnostics := [], DataSourceData := none, ResourceData := none }

/-! ## Auxiliary facts about diagnostics -/

theorem Append_nil (diags : Diagnostics) : Append diags [] = diags := rfl

theorem Contains_error_of_not_HasError (diags : Diagnostics) (summary detail : String)
    (h : HasError diags = false) :
    Contains diags { Severity := Severity.Error, Summary := summary, Detail := detail } = false := by
  induction diags with
  | nil => rfl
  | cons d rest ih =>
    simp only [HasError, List.any_cons, Bool.or_eq_false_iff, decide_eq_false_iff_not] at h
    simp only [Contains, List.any_cons, Bool.or_eq_false_iff, decide_eq_false_iff_not]
    refine ⟨?_, ih h.2⟩
    intro hd
    exact h.1 (by rw [hd])

theorem AddError_of_not_HasError (diags : Diagnostics) (summary detail : String)
    (h : HasError diags = false) :
    AddError diags summary detail =
      diags ++ [{ Severity := Severity.Error, Summary := summary, Detail := detail }] := by
  simp [AddError, Append, Contains_error_of_not_HasError diags summary detail h]

theorem HasError_append_error (diags : Diagnostics) (summary detail : String) :
    HasError (diags ++ [{ Severity := Severity.Error, Summary := summary, Detail := detail }])
      = true := by
  simp [HasError]

/-! ## The callbacks, branch by branch -/

theorem Refresh_ok (wide : Char → Bool) (r : PasswordAndDescriptionResource)
    (data : PasswordAndDescriptionResourceModel) (res : GetResult)
    (h : r.client.GetResource (data.Id.String wide) = Except.ok res) :
    r.Refresh wide data =
      (({ Name := TfString.known res.name
          FolderParentId := TfString.known res.folderParentID
          Username := TfString.known res.username
          URI := TfString.known res.uri
          Password := TfString.known res.password
          Description := TfString.known res.description
          Id := data.Id }, none),
        [{ call := Call.GetResource (data.Id.String wide), err := none }]) := by
  simp [PasswordAndDescriptionResource.Refresh, h, StringValue]

theorem Refresh_error (wide : Char → Bool) (r : PasswordAndDescriptionResource)
    (data : PasswordAndDescriptionResourceModel) (err : String)
    (h : r.client.GetResource (data.Id.String wide) = Except.error err) :
    r.Refresh wide data =
      ((data, some err), [{ call := Call.GetResource (data.Id.String wide), err := some err }]) := by
  simp [PasswordAndDescriptionResource.Refresh, h]

theorem Create_of_HasError (wide : Char → Bool) (r : PasswordAndDescriptionResource)
    (req : PlanRequest) (resp : Response) (h0 : HasError resp.Diagnostics = true) :
    r.Create wide req resp = (resp, []) := by
  simp [PasswordAndDescriptionResource.Create, Plan.Get, Append_nil, h0]

theorem Create_of_create_error (wide : Char → Bool) (r : PasswordAndDescriptionResource)
    (req : PlanRequest) (resp : Response) (err : String)
    (h0 : HasError resp.Diagnostics = false)
    (hc : r.client.CreateResource (req.Plan.Raw.FolderParentId.String wide)
        (req.Plan.Raw.Name.String wide) (req.Plan.Raw.Username.String wide)
        (req.Plan.Raw.URI.String wide) (req.Plan.Raw.Password.String wide)
        (req.Plan.Raw.Description.String wide) = Except.error err) :
    r.Create wide req resp =
      ({ Diagnostics := resp.Diagnostics ++
            [{ Severity := Severity.Error
               Summary := "API Error when creating " ++ req.Plan.Raw.Name.String wide ++
                 " password-and-description resource"
               Detail := err }]
         State := resp.State },
        [{ call := Call.CreateResource (req.Plan.Raw.FolderParentId.String wide)
              (req.Plan.Raw.Name.String wide) (req.Plan.Raw.Username.String wide)
              (req.Plan.Raw.URI.String wide) (req.Plan.Raw.Password.String wide)
              (req.Plan.Raw.Description.String wide)
           err := some err }]) := by
  simp [PasswordAndDescriptionResource.Create, Plan.Get, Append_nil, h0, hc,
    AddError_of_not_HasError]

theorem Create_of_refresh_error (wide : Char → Bool) (r : PasswordAndDescriptionResource)
    (req : PlanRequest) (resp : Response) (id err : String)
    (h0 : HasError resp.Diagnostics = false)
    (hc : r.client.CreateResource (req.Plan.Raw.FolderParentId.String wide)
        (req.Plan.Raw.Name.String wide) (req.Plan.Raw.Username.String wide)
        (req.Plan.Raw.URI.String wide) (req.Plan.Raw.Password.String wide)
        (req.Plan.Raw.Description.String wide) = Except.ok id)
    (hg : r.client.GetResource ((TfString.known id).String wide) = Except.error err) :
    r.Create wide req resp =
      ({ Diagnostics := resp.Diagnostics ++
            [{ Severity := Severity.Error
               Summary := "API Error when refreshing " ++ req.Plan.Raw.Name.String wide ++
                 " password-and-description resource with id " ++
                 (TfString.known id).String wide ++ " just after creation"
               Detail := err }]
         State := resp.State },
        [{ call := Call.CreateResource (req.Plan.Raw.FolderParentId.String wide)
              (req.Plan.Raw.Name.String wide) (req.Plan.Raw.Username.String wide)
              (req.Plan.Raw.URI.String wide) (req.Plan.Raw.Password.String wide)
              (req.Plan.Raw.Description.String wide)
           err := none },
         { call := Call.GetResource ((TfString.known id).String wide), err := some err }]) := by
  simp [PasswordAndDescriptionResource.Create, Plan.Get, Append_nil, h0, hc,
    PasswordAndDescriptionResource.Refresh, hg, StringValue, AddError_of_not_HasError]

theorem Create_of_ok (wide : Char → Bool) (r : PasswordAndDescriptionResource)
    (req : PlanRequest) (resp : Response) (id : String) (res : GetResult)
    (h0 : HasError resp.Diagnostics = false)
    (hc : r.client.CreateResource (req.Plan.Raw.FolderParentId.String wide)
        (req.Plan.Raw.Name.String wide) (req.Plan.Raw.Username.String wide)
        (req.Plan.Raw.URI.String wide) (req.Plan.Raw.Password.String wide)
        (req.Plan.Raw.Description.String wide) = Except.ok id)
    (hg : r.client.GetResource ((TfString.known id).String wide) = Except.ok res) :
    r.Create wide req resp =
      ({ Diagnostics := resp.Diagnostics
         State := { Raw := some (
            { Name := TfString.known res.name
              FolderParentId := TfString.known res.folderParentID
              Username := TfString.known res.username
              URI := TfString.known res.uri
              Password := TfString.known res.password
              Description := TfString.known res.description
              Id := TfString.known id }) } },
        [{ call := Call.CreateResource (req.Plan.Raw.FolderParentId.String wide)
              (req.Plan.Raw.Name.String wide) (req.Plan.Raw.Username.String wide)
              (req.Plan.Raw.URI.String wide) (req.Plan.Raw.Password.String wide)
              (req.Plan.Raw.Description.String wide)
           err := none },
         { call := Call.GetResource ((TfString.known id).String wide), err := none }]) := by
  simp [PasswordAndDescriptionResource.Create, Plan.Get, Append_nil, h0, hc,
    PasswordAndDescriptionResource.Refresh, hg, StringValue, State.Set]

theorem Read_of_HasError (wide : Char → Bool) (r : PasswordAndDescriptionResource)
    (req : StateRequest) (resp : Response) (h0 : HasError resp.Diagnostics = true) :
    r.Read wide req resp = (resp, []) := by
  simp [PasswordAndDescriptionResource.Read, StateRequest.Get, Append_nil, h0]

theorem Read_of_error (wide : Char → Bool) (r : PasswordAndDescriptionResource)
    (req : StateRequest) (resp : Response) (err : String)
    (h0 : HasError resp.Diagnostics = false)
    (hg : r.client.GetResource (req.State.Id.String wide) = Except.error err) :
    r.Read wide req resp =
      ({ Diagnostics := resp.Diagnostics ++
            [{ Severity := Severity.Error
               Summary := "API Error when reading password-and-description resource with id " ++
                 req.State.Id.String wide
               Detail := err }]
         State := resp.State },
        [{ call := Call.GetResource (req.State.Id.String wide), err := some err }]) := by
  simp [PasswordAndDescriptionResource.Read, StateRequest.Get, Append_nil, h0,
    PasswordAndDescriptionResource.Refresh, hg, AddError_of_not_HasError]

theorem Read_of_ok (wide : Char → Bool) (r : PasswordAndDescriptionResource)
    (req : StateRequest) (resp : Response) (res : GetResult)
    (h0 : HasError resp.Diagnostics = false)
    (hg : r.client.GetResource (req.State.Id.String wide) = Except.ok res) :
    r.Read wide req resp =
      ({ Diagnostics := resp.Diagnostics
         State := { Raw := some (
            { Name := TfString.known res.name
              FolderParentId := TfString.known res.folderParentID
              Username := TfString.known res.username
              URI := TfString.known res.uri
              Password := TfString.known res.password
              Description := TfString.known res.description
              Id := req.State.Id }) } },
        [{ call := Call.GetResource (req.State.Id.String wide), err := none }]) := by
  simp [PasswordAndDescriptionResource.Read, StateRequest.Get, Append_nil, h0,
    PasswordAndDescriptionResource.Refresh, hg, StringValue, State.Set]

theorem DataSourceRead_of_HasError (wide : Char → Bool) (d : PasswordAndDescriptionDataSource)
    (req : ConfigRequest) (resp : Response) (h0 : HasError resp.Diagnostics = true) :
    d.Read wide req resp = (resp, []) := by
  simp [PasswordAndDescriptionDataSource.Read, Config.Get, Append_nil, h0]

theorem DataSourceRead_of_error (wide : Char → Bool) (d : PasswordAndDescriptionDataSource)
    (req : ConfigRequest) (resp : Response) (err : String)
    (h0 : HasError resp.Diagnostics = false)
    (hg : d.client.GetResource (req.Config.Raw.Id.String wide) = Except.error err) :
    d.Read wide req resp =
      ({ Diagnostics := resp.Diagnostics ++
            [{ Severity := Severity.Error
               Summary := "API Error when reading password-and-description resource with id " ++
                 req.Config.Raw.Id.String wide
               Detail := err }]
         State := resp.State },
        [{ call := Call.GetResource (req.Config.Raw.Id.String wide), err := some err }]) := by
  simp [PasswordAndDescriptionDataSource.Read, Config.Get, Append_nil, h0, hg,
    AddError_of_not_HasError]

theorem DataSourceRead_of_ok (wide : Char → Bool) (d : PasswordAndDescriptionDataSource)
    (req : ConfigRequest) (resp : Response) (res : GetResult)
    (h0 : HasError resp.Diagnostics = false)
    (hg : d.client.GetResource (req.Config.Raw.Id.String wide) = Except.ok res) :
    d.Read wide req resp =
      ({ Diagnostics := resp.Diagnostics
         State := { Raw := some (
            { Name := TfString.known res.name
              FolderParentId := TfString.known res.folderParentID
              Username := TfString.known res.username
              URI := TfString.known res.uri
              Password := TfString.known res.password
              Description := TfString.known res.description
              Id := req.Config.Raw.Id }) } },
        [{ call := Call.GetResource (req.Config.Raw.Id.String wide), err := none }]) := by
  simp [PasswordAndDescriptionDataSource.Read, Config.Get, Append_nil, h0, hg, StringValue,
    State.Set]

theorem Update_of_HasError (wide : Char → Bool) (r : PasswordAndDescriptionResource)
    (req : PlanRequest) (resp : Response) (h0 : HasError resp.Diagnostics = true) :
    r.Update wide req resp = (resp, []) := by
  simp [PasswordAndDescriptionResource.Update, Plan.Get, Append_nil, h0]

theorem Update_of_update_error (wide : Char → Bool) (r : PasswordAndDescriptionResource)
    (req : PlanRequest) (resp : Response) (err : String)
    (h0 : HasError resp.Diagnostics = false)
    (hu : r.client.UpdateResource (req.Plan.Raw.Id.String wide)
        (req.Plan.Raw.Name.String wide) (req.Plan.Raw.Username.String wide)
        (req.Plan.Raw.URI.String wide) (req.Plan.Raw.Password.String wide)
        (req.Plan.Raw.Description.String wide) = Except.error err) :
    r.Update wide req resp =
      ({ Diagnostics := resp.Diagnostics ++
            [{ Severity := Severity.Error
               Summary := "API Error when updating " ++ req.Plan.Raw.Name.String wide ++
                 " password-and-description resource with id " ++ req.Plan.Raw.Id.String wide
               Detail := err }]
         State := resp.State },
        [{ call := Call.UpdateResource (req.Plan.Raw.Id.String wide)
              (req.Plan.Raw.Name.String wide) (req.Plan.Raw.Username.String wide)
              (req.Plan.Raw.URI.String wide) (req.Plan.Raw.Password.String wide)
              (req.Plan.Raw.Description.String wide)
           err := some err }]) := by
  simp [PasswordAndDescriptionResource.Update, Plan.Get, Append_nil, h0, hu,
    AddError_of_not_HasError]

theorem Update_of_refresh_error (wide : Char → Bool) (r : PasswordAndDescriptionResource)
    (req : PlanRequest) (resp : Response) (err : String)
    (h0 : HasError resp.Diagnostics = false)
    (hu : r.client.UpdateResource (req.Plan.Raw.Id.String wide)
        (req.Plan.Raw.Name.String wide) (req.Plan.Raw.Username.String wide)
        (req.Plan.Raw.URI.String wide) (req.Plan.Raw.Password.String wide)
        (req.Plan.Raw.Description.String wide) = Except.ok ())
    (hg : r.client.GetResource (req.Plan.Raw.Id.String wide) = Except.error err) :
    r.Update wide req resp =
      ({ Diagnostics := resp.Diagnostics ++
            [{ Severity := Severity.Error
               Summary := "API Error when refreshing " ++ req.Plan.Raw.Name.String wide ++
                 " password-and-description resource with id " ++ req.Plan.Raw.Id.String wide ++
                 " just after update"
               Detail := err }]
         State := resp.State },
        [{ call := Call.UpdateResource (req.Plan.Raw.Id.String wide)
              (req.Plan.Raw.Name.String wide) (req.Plan.Raw.Username.String wide)
              (req.Plan.Raw.URI.String wide) (req.Plan.Raw.Password.String wide)
              (req.Plan.Raw.Description.String wide)
           err := none },
         { call := Call.GetResource (req.Plan.Raw.Id.String wide), err := some err }]) := by
  simp [PasswordAndDescriptionResource.Update, Plan.Get, Append_nil, h0, hu,
    PasswordAndDescriptionResource.Refresh, hg, AddError_of_not_HasError]

theorem Update_of_ok (wide : Char → Bool) (r : PasswordAndDescriptionResource)
    (req : PlanRequest) (resp : Response) (res : GetResult)
    (h0 : HasError resp.Diagnostics = false)
    (hu : r.client.UpdateResource (req.Plan.Raw.Id.String wide)
        (req.Plan.Raw.Name.String wide) (req.Plan.Raw.Username.String wide)
        (req.Plan.Raw.URI.String wide) (req.Plan.Raw.Password.String wide)
        (req.Plan.Raw.Description.String wide) = Except.ok ())
    (hg : r.client.GetResource (req.Plan.Raw.Id.String wide) = Except.ok res) :
    r.Update wide req resp =
      ({ Diagnostics := resp.Diagnostics
         State := { Raw := some (
            { Name := TfString.known res.name
              FolderParentId := TfString.known res.folderParentID
              Username := TfString.known res.username
              URI := TfString.known res.uri
              Password := TfString.known res.password
              Description := TfString.known res.description
              Id := req.Plan.Raw.Id }) } },
        [{ call := Call.UpdateResource (req.Plan.Raw.Id.String wide)
              (req.Plan.Raw.Name.String wide) (req.Plan.Raw.Username.String wide)
              (req.Plan.Raw.URI.String wide) (req.Plan.Raw.Password.String wide)
              (req.Plan.Raw.Description.String wide)
           err := none },
         { call := Call.GetResource (req.Plan.Raw.Id.String wide), err := none }]) := by
  simp [PasswordAndDescriptionResource.Update, Plan.Get, Append_nil, h0, hu,
    PasswordAndDescriptionResource.Refresh, hg, StringValue, State.Set]

theorem Delete_of_HasError (wide : Char → Bool) (r : PasswordAndDescriptionResource)
    (req : StateRequest) (resp : Response) (h0 : HasError resp.Diagnostics = true) :
    r.Delete wide req resp = (resp, []) := by
  simp [PasswordAndDescriptionResource.Delete, StateRequest.Get, Append_nil, h0]

theorem Delete_of_error (wide : Char → Bool) (r : PasswordAndDescriptionResource)
    (req : StateRequest) (resp : Response) (err : String)
    (h0 : HasError resp.Diagnostics = false)
    (hd : r.client.DeleteResource (req.State.Id.String wide) = Except.error err) :
    r.Delete wide req resp =
      ({ Diagnostics := resp.Diagnostics ++
            [{ Severity := Severity.Error
               Summary := "API Error when deleting " ++ req.State.Name.String wide ++
                 " password-and-description resource with id " ++ req.State.Id.String wide
               Detail := err }]
         State := resp.State },
        [{ call := Call.DeleteResource (req.State.Id.String wide), err := some err }]) := by
  simp [PasswordAndDescriptionResource.Delete, StateRequest.Get, Append_nil, h0, hd,
    AddError_of_not_HasError]

theorem Delete_of_ok (wide : Char → Bool) (r : PasswordAndDescriptionResource)
    (req : StateRequest) (resp : Response)
    (h0 : HasError resp.Diagnostics = false)
    (hd : r.client.DeleteResource (req.State.Id.String wide) = Except.ok ()) :
    r.Delete wide req resp =
      (resp, [{ call := Call.DeleteResource (req.State.Id.String wide), err := none }]) := by
  simp [PasswordAndDescriptionResource.Delete, StateRequest.Get, Append_nil, h0, hd]

theorem errOf_eq_cases {α β : Type} (x : Except String α) (y : Except String β)
    (h : errOf x = errOf y) :
    (∃ e, x = Except.error e ∧ y = Except.error e) ∨ (∃ a b, x = Except.ok a ∧ y = Except.ok b) := by
  cases x with
  | error e =>
    cases y with
    | error e2 =>
      simp only [errOf, Option.some.injEq] at h
      exact Or.inl ⟨e, rfl, by rw [h]⟩
    | ok b => simp [errOf] at h
  | ok a =>
    cases y with
    | error e2 => simp [errOf] at h
    | ok b => exact Or.inr ⟨a, b, rfl, rfl⟩

theorem Configure_of_ok (wide : Char → Bool)
    (NewClient : String → String → String → String → Except String Client)
    (p : PassboltProvider) (req : ProviderConfigureRequest) (resp : ProviderConfigureResponse)
    (client : Client) (h0 : HasError resp.Diagnostics = false)
    (hn : NewClient ("PassboltTerraformProvider/" ++ p.version)
        (req.Config.Endpoint.String wide) (req.Config.UserPrivateKey.String wide)
        (req.Config.UserPassword.String wide) = Except.ok client) :
    (p.Configure wide NewClient req resp).1.Diagnostics = resp.Diagnostics ∧
    (p.Configure wide NewClient req resp).1.DataSourceData = some client ∧
    (p.Configure wide NewClient req resp).1.ResourceData = some client := by
  simp [PassboltProvider.Configure, ProviderConfigureRequest.Get, Append_nil, h0, hn]

theorem Configure_of_error (wide : Char → Bool)
    (NewClient : String → String → String → String → Except String Client)
    (p : PassboltProvider) (req : ProviderConfigureRequest) (resp : ProviderConfigureResponse)
    (err : String) (h0 : HasError resp.Diagnostics = false)
    (hn : NewClient ("PassboltTerraformProvider/" ++ p.version)
        (req.Config.Endpoint.String wide) (req.Config.UserPrivateKey.String wide)
        (req.Config.UserPassword.String wide) = Except.error err) :
    (p.Configure wide NewClient req resp).1.Diagnostics =
      resp.Diagnostics ++
        [{ Severity := Severity.Error, Summary := "API Error when creating client",
           Detail := err }] ∧
    (p.Configure wide NewClient req resp).1.DataSourceData = resp.DataSourceData ∧
    (p.Configure wide NewClient req resp).1.ResourceData = resp.ResourceData := by
  simp [PassboltProvider.Configure, ProviderConfigureRequest.Get, Append_nil, h0, hn,
    AddError_of_not_HasError]

/-! ## What the external calls receive -/

theorem one_le_length_ite {p : Prop} [Decidable p] {a b : List Char}
    (ha : 1 ≤ a.length) (hb : 1 ≤ b.length) : 1 ≤ (if p then a else b).length := by
  split <;> assumption

/-- Every quoted string is longer than the string itself by at least the two
surrounding quotes. -/
theorem appendQuotedBody_length (wide : Char → Bool) (l : List Char) :
    l.length ≤ (appendQuotedBody wide l).length := by
  induction l with
  | nil => simp [appendQuotedBody]
  | cons c rest ih =>
    have hc : 1 ≤ (appendEscapedRune wide c).length := by
      unfold appendEscapedRune
      repeat (first | exact Nat.succ_le_succ (Nat.zero_le _) | apply one_le_length_ite)
    simp only [appendQuotedBody, List.length_append, List.length_cons]
    omega

theorem Quote_length (wide : Char → Bool) (s : String) :
    s.length + 2 ≤ (Quote wide s).length := by
  have h := appendQuotedBody_length wide s.data
  simp only [Quote, String.length, List.length_cons, List.length_append, List.length_nil]
  simp only [String.length] at h
  omega

/-- The rendering `String()` of a known value is never the value itself. -/
theorem String_known_ne (wide : Char → Bool) (s : String) :
    (TfString.known s).String wide ≠ s := by
  intro h
  have hl := Quote_length wide s
  simp only [TfString.String] at h
  rw [h] at hl
  omega

theorem Create_first_call (wide : Char → Bool) (r : PasswordAndDescriptionResource)
    (req : PlanRequest) (resp : Response) (h0 : HasError resp.Diagnostics = false) :
    ((r.Create wide req resp).2.head?).map (fun c => c.call) =
      some (Call.CreateResource (req.Plan.Raw.FolderParentId.String wide)
        (req.Plan.Raw.Name.String wide) (req.Plan.Raw.Username.String wide)
        (req.Plan.Raw.URI.String wide) (req.Plan.Raw.Password.String wide)
        (req.Plan.Raw.Description.String wide)) := by
  cases hc : r.client.CreateResource (req.Plan.Raw.FolderParentId.String wide)
      (req.Plan.Raw.Name.String wide) (req.Plan.Raw.Username.String wide)
      (req.Plan.Raw.URI.String wide) (req.Plan.Raw.Password.String wide)
      (req.Plan.Raw.Description.String wide) with
  | error err =>
    rw [Create_of_create_error wide r req resp err h0 hc]
    rfl
  | ok id =>
    cases hg : r.client.GetResource ((TfString.known id).String wide) with
    | error err =>
      rw [Create_of_refresh_error wide r req resp id err h0 hc hg]
      rfl
    | ok res =>
      rw [Create_of_ok wide r req resp id res h0 hc hg]
      rfl

theorem Update_first_call (wide : Char → Bool) (r : PasswordAndDescriptionResource)
    (req : PlanRequest) (resp : Response) (h0 : HasError resp.Diagnostics = false) :
    ((r.Update wide req resp).2.head?).map (fun c => c.call) =
      some (Call.UpdateResource (req.Plan.Raw.Id.String wide)
        (req.Plan.Raw.Name.String wide) (req.Plan.Raw.Username.String wide)
        (req.Plan.Raw.URI.String wide) (req.Plan.Raw.Password.String wide)
        (req.Plan.Raw.Description.String wide)) := by
  cases hu : r.client.UpdateResource (req.Plan.Raw.Id.String wide)
      (req.Plan.Raw.Name.String wide) (req.Plan.Raw.Username.String wide)
      (req.Plan.Raw.URI.String wide) (req.Plan.Raw.Password.String wide)
      (req.Plan.Raw.Description.String wide) with
  | error err =>
    rw [Update_of_update_error wide r req resp err h0 hu]
    rfl
  | ok u =>
    cases hg : r.client.GetResource (req.Plan.Raw.Id.String wide) with
    | error err =>
      rw [Update_of_refresh_error wide r req resp err h0 hu hg]
      rfl
    | ok res =>
      rw [Update_of_ok wide r req resp res h0 hu hg]
      rfl

theorem Refresh_calls (wide : Char → Bool) (r : PasswordAndDescriptionResource)
    (data : PasswordAndDescriptionResourceModel) :
    (r.Refresh wide data).2.map (fun c => c.call) = [Call.GetResource (data.Id.String wide)] := by
  cases hg : r.client.GetResource (data.Id.String wide) with
  | error err => rw [Refresh_error wide r data err hg]; rfl
  | ok res => rw [Refresh_ok wide r data res hg]; rfl

theorem Delete_calls (wide : Char → Bool) (r : PasswordAndDescriptionResource)
    (req : StateRequest) (resp : Response) (h0 : HasError resp.Diagnostics = false) :
    (r.Delete wide req resp).2.map (fun c => c.call) =
      [Call.DeleteResource (req.State.Id.String wide)] := by
  cases hd : r.client.DeleteResource (req.State.Id.String wide) with
  | error err => rw [Delete_of_error wide r req resp err h0 hd]; rfl
  | ok u => rw [Delete_of_ok wide r req resp h0 hd]; rfl

theorem DataSourceRead_calls (wide : Char → Bool) (d : PasswordAndDescriptionDataSource)
    (req : ConfigRequest) (resp : Response) (h0 : HasError resp.Diagnostics = false) :
    (d.Read wide req resp).2.map (fun c => c.call) =
      [Call.GetResource (req.Config.Raw.Id.String wide)] := by
  cases hg : d.client.GetResource (req.Config.Raw.Id.String wide) with
  | error err => rw [DataSourceRead_of_error wide d req resp err h0 hg]; rfl
  | ok res => rw [DataSourceRead_of_ok wide d req resp res h0 hg]; rfl

theorem Configure_calls (wide : Char → Bool)
    (NewClient : String → String → String → String → Except String Client)
    (p : PassboltProvider) (req : ProviderConfigureRequest) (resp : ProviderConfigureResponse)
    (h0 : HasError resp.Diagnostics = false) :
    (p.Configure wide NewClient req resp).2.map (fun c => c.call) =
      [Call.NewClient ("PassboltTerraformProvider/" ++ p.version)
        (req.Config.Endpoint.String wide) (req.Config.UserPrivateKey.String wide)
        (req.Config.UserPassword.String wide)] := by
  unfold PassboltProvider.Configure
  simp only [ProviderConfigureRequest.Get, Append_nil, h0]
  cases NewClient ("PassboltTerraformProvider/" ++ p.version)
      (req.Config.Endpoint.String wide) (req.Config.UserPrivateKey.String wide)
      (req.Config.UserPassword.String wide) <;> simp


/-! ## Refresh -/

/-- C8: Refresh changes only the six server-owned fields.  When
`helper.GetResource` succeeds, the returned model carries the six returned
values, each in its own field, and keeps the input's id, with a nil error; when
it fails, the returned model is the input model and the error is the one
returned. -/
theorem Refresh_changes_only_server_fields (wide : Char → Bool)
    (r : PasswordAndDescriptionResource) (data : PasswordAndDescriptionResourceModel) :
    (∀ res, r.client.GetResource (data.Id.String wide) = Except.ok res →
      (r.Refresh wide data).1 =
        ({ Name := TfString.known res.name
           FolderParentId := TfString.known res.folderParentID
           Username := TfString.known res.username
           URI := TfString.known res.uri
           Password := TfString.known res.password
           Description := TfString.known res.description
           Id := data.Id }, none)) ∧
    (∀ err, r.client.GetResource (data.Id.String wide) = Except.error err →
      (r.Refresh wide data).1 = (data, some err)) := by
  constructor
  · intro res h
    simp [PasswordAndDescriptionResource.Refresh, h, StringValue]
  · intro err h
    simp [PasswordAndDescriptionResource.Refresh, h]

/-- Instance of the preceding theorem: a model whose password
and description differ from the service's, refreshed on the example service
and on a service that refuses. -/
theorem Refresh_changes_only_server_fields_witness :
    (PasswordAndDescriptionResource.Refresh allWidePrintable { client := exampleClient }
        exampleRotated).1 =
      ({ Name := TfString.known "db"
         FolderParentId := TfString.known "folder-1"
         Username := TfString.known "admin"
         URI := TfString.known "https://db.example"
         Password := TfString.known "s3cret"
         Description := TfString.known "notes"
         Id := TfString.known "0a1b" }, none) ∧
    (PasswordAndDescriptionResource.Refresh allWidePrintable { client := failingClient }
        exampleRotated).1 = (exampleRotated, some "boom") :=
  ⟨(Refresh_changes_only_server_fields allWidePrintable { client := exampleClient }
      exampleRotated).1
      { folderParentID := "folder-1", name := "db", username := "admin",
        uri := "https://db.example", password := "s3cret", description := "notes" } rfl,
    (Refresh_changes_only_server_fields allWidePrintable { client := failingClient }
      exampleRotated).2 "boom" rfl⟩

/-! ## Create -/

/-- C4: the identifier is generated server-side on creation.  Whenever the
`helper.CreateResource` call made by Create returned `(id, nil)` and the
`helper.GetResource` call of the following refresh returned its six values
without error, the state written by Create has that id, whatever id the plan
carried, and its other six fields are the values returned by
`helper.GetResource`. -/
theorem Create_state_from_service (wide : Char → Bool) (r : PasswordAndDescriptionResource)
    (req : PlanRequest) (resp : Response) (a b c d e f k id : String) (res : GetResult)
    (hcall : { call := Call.CreateResource a b c d e f, err := none } ∈ (r.Create wide req resp).2)
    (hid : r.client.CreateResource a b c d e f = Except.ok id)
    (hget : { call := Call.GetResource k, err := none } ∈ (r.Create wide req resp).2)
    (hres : r.client.GetResource k = Except.ok res) :
    (r.Create wide req resp).1.State.Raw =
      some { Name := TfString.known res.name
             FolderParentId := TfString.known res.folderParentID
             Username := TfString.known res.username
             URI := TfString.known res.uri
             Password := TfString.known res.password
             Description := TfString.known res.description
             Id := TfString.known id } := by
  unfold PasswordAndDescriptionResource.Create at hcall hget ⊢
  simp only [Plan.Get, Append_nil] at hcall hget ⊢
  by_cases h0 : HasError resp.Diagnostics = true
  · simp [h0] at hcall
  · simp only [h0] at hcall hget ⊢
    cases hc : r.client.CreateResource (req.Plan.Raw.FolderParentId.String wide)
        (req.Plan.Raw.Name.String wide) (req.Plan.Raw.Username.String wide)
        (req.Plan.Raw.URI.String wide) (req.Plan.Raw.Password.String wide)
        (req.Plan.Raw.Description.String wide) with
    | error err => simp [hc] at hcall
    | ok id' =>
      simp only [hc] at hcall hget ⊢
      cases hg : r.client.GetResource ((StringValue id').String wide) with
      | error err =>
        simp [PasswordAndDescriptionResource.Refresh, hg] at hget
      | ok res' =>
        simp [PasswordAndDescriptionResource.Refresh, hg] at hcall hget ⊢
        obtain ⟨h1, h2, h3, h4, h5, h6⟩ := hcall
        subst h1 h2 h3 h4 h5 h6
        subst hget
        rw [hc] at hid
        rw [hg] at hres
        cases hid; cases hres
        simp [State.Set, StringValue]

/-- Instance of the preceding theorem: the example plan, whose id is
unknown, created on the example service. -/
theorem Create_state_from_service_witness :
    (PasswordAndDescriptionResource.Create allWidePrintable { client := exampleClient }
        { Plan := { Raw := examplePlan } } emptyResponse).1.State.Raw =
      some { Name := TfString.known "db"
             FolderParentId := TfString.known "folder-1"
             Username := TfString.known "admin"
             URI := TfString.known "https://db.example"
             Password := TfString.known "s3cret"
             Description := TfString.known "notes"
             Id := TfString.known "0a1b" } :=
  Create_state_from_service allWidePrintable { client := exampleClient }
    { Plan := { Raw := examplePlan } } emptyResponse
    "\"folder-1\"" "\"db\"" "\"admin\"" "\"https://db.example\"" "\"s3cret\"" "\"notes\""
    "\"0a1b\"" "0a1b"
    { folderParentID := "folder-1", name := "db", username := "admin",
      uri := "https://db.example", password := "s3cret", description := "notes" }
    (by decide) rfl (by decide) rfl

/-- C3, as stated, fails: on a service whose create call succeeds with the
empty identifier, Create finishes without an error diagnostic and stores the
empty string as id. -/
theorem Create_can_store_empty_id :
    HasError (PasswordAndDescriptionResource.Create allWidePrintable { client := emptyIdClient }
        { Plan := { Raw := examplePlan } } emptyResponse).1.Diagnostics = false ∧
    (PasswordAndDescriptionResource.Create allWidePrintable { client := emptyIdClient }
        { Plan := { Raw := examplePlan } } emptyResponse).1.State.Raw.map
          (fun m => m.Id) = some (TfString.known "") := by
  decide

/-- C3, amended: provided the service never answers a create call with an
empty identifier, whenever Create finishes without an error diagnostic, a
`helper.CreateResource` call was made and returned some id without error, and
the id stored in the resulting state is that id, a non-empty string. -/
theorem Create_id_nonempty_of_service (wide : Char → Bool) (r : PasswordAndDescriptionResource)
    (req : PlanRequest) (resp : Response)
    (hservice : ∀ a b c d e f id, r.client.CreateResource a b c d e f = Except.ok id → id ≠ "")
    (hfin : HasError (r.Create wide req resp).1.Diagnostics = false) :
    ∃ a b c d e f id m,
      { call := Call.CreateResource a b c d e f, err := none } ∈ (r.Create wide req resp).2 ∧
      r.client.CreateResource a b c d e f = Except.ok id ∧
      (r.Create wide req resp).1.State.Raw = some m ∧ m.Id = TfString.known id ∧ id ≠ "" := by
  by_cases h0 : HasError resp.Diagnostics = true
  · rw [Create_of_HasError wide r req resp h0] at hfin
    simp [h0] at hfin
  · have h0' : HasError resp.Diagnostics = false := by simpa using h0
    cases hc : r.client.CreateResource (req.Plan.Raw.FolderParentId.String wide)
        (req.Plan.Raw.Name.String wide) (req.Plan.Raw.Username.String wide)
        (req.Plan.Raw.URI.String wide) (req.Plan.Raw.Password.String wide)
        (req.Plan.Raw.Description.String wide) with
    | error err =>
      rw [Create_of_create_error wide r req resp err h0' hc] at hfin
      simp [HasError_append_error] at hfin
    | ok id =>
      cases hg : r.client.GetResource ((TfString.known id).String wide) with
      | error err =>
        rw [Create_of_refresh_error wide r req resp id err h0' hc hg] at hfin
        simp [HasError_append_error] at hfin
      | ok res =>
        rw [Create_of_ok wide r req resp id res h0' hc hg]
        exact ⟨_, _, _, _, _, _, id, _, List.mem_cons_self _ _, hc, rfl, rfl,
          hservice _ _ _ _ _ _ _ hc⟩

/-- Instance of the preceding theorem on the example service, which
creates under the id `0a1b`. -/
theorem Create_id_nonempty_of_service_witness :
    ∃ a b c d e f id m,
      { call := Call.CreateResource a b c d e f, err := none } ∈
        (PasswordAndDescriptionResource.Create allWidePrintable { client := exampleClient }
          { Plan := { Raw := examplePlan } } emptyResponse).2 ∧
      exampleClient.CreateResource a b c d e f = Except.ok id ∧
      (PasswordAndDescriptionResource.Create allWidePrintable { client := exampleClient }
          { Plan := { Raw := examplePlan } } emptyResponse).1.State.Raw = some m ∧
      m.Id = TfString.known id ∧ id ≠ "" :=
  Create_id_nonempty_of_service allWidePrintable { client := exampleClient }
    { Plan := { Raw := examplePlan } } emptyResponse
    (by intro a b c d e f id h; cases h; decide) (by decide)

/-! ## Error translation -/

/-- C5: errors are translated into diagnostics, and only errors.  For each of
Create, resource Read, Update, Delete and data-source Read, started from
diagnostics without errors, the response contains an error diagnostic if and
only if one of the external calls the callback made returned an error; in that
case exactly one error diagnostic is appended, its detail is the error's
message, and the state is left as it was. -/
theorem errors_become_diagnostics (wide : Char → Bool) (r : PasswordAndDescriptionResource)
    (d : PasswordAndDescriptionDataSource) (plan : PlanRequest) (prior : StateRequest)
    (config : ConfigRequest) (resp : Response) (h0 : HasError resp.Diagnostics = false) :
    TranslatesErrors resp (r.Create wide plan resp) ∧
    TranslatesErrors resp (r.Read wide prior resp) ∧
    TranslatesErrors resp (r.Update wide plan resp) ∧
    TranslatesErrors resp (r.Delete wide prior resp) ∧
    TranslatesErrors resp (d.Read wide config resp) := by
  refine ⟨?_, ?_, ?_, ?_, ?_⟩
  · cases hc : r.client.CreateResource (plan.Plan.Raw.FolderParentId.String wide)
        (plan.Plan.Raw.Name.String wide) (plan.Plan.Raw.Username.String wide)
        (plan.Plan.Raw.URI.String wide) (plan.Plan.Raw.Password.String wide)
        (plan.Plan.Raw.Description.String wide) with
    | error err =>
      rw [Create_of_create_error wide r plan resp err h0 hc]
      simp [TranslatesErrors, HasError_append_error]
    | ok id =>
      cases hg : r.client.GetResource ((TfString.known id).String wide) with
      | error err =>
        rw [Create_of_refresh_error wide r plan resp id err h0 hc hg]
        simp [TranslatesErrors, HasError_append_error]
      | ok res =>
        rw [Create_of_ok wide r plan resp id res h0 hc hg]
        simp [TranslatesErrors, h0]
  · cases hg : r.client.GetResource (prior.State.Id.String wide) with
    | error err =>
      rw [Read_of_error wide r prior resp err h0 hg]
      simp [TranslatesErrors, HasError_append_error]
    | ok res =>
      rw [Read_of_ok wide r prior resp res h0 hg]
      simp [TranslatesErrors, h0]
  · cases hu : r.client.UpdateResource (plan.Plan.Raw.Id.String wide)
        (plan.Plan.Raw.Name.String wide) (plan.Plan.Raw.Username.String wide)
        (plan.Plan.Raw.URI.String wide) (plan.Plan.Raw.Password.String wide)
        (plan.Plan.Raw.Description.String wide) with
    | error err =>
      rw [Update_of_update_error wide r plan resp err h0 hu]
      simp [TranslatesErrors, HasError_append_error]
    | ok u =>
      cases hg : r.client.GetResource (plan.Plan.Raw.Id.String wide) with
      | error err =>
        rw [Update_of_refresh_error wide r plan resp err h0 hu hg]
        simp [TranslatesErrors, HasError_append_error]
      | ok res =>
        rw [Update_of_ok wide r plan resp res h0 hu hg]
        simp [TranslatesErrors, h0]
  · cases hd : r.client.DeleteResource (prior.State.Id.String wide) with
    | error err =>
      rw [Delete_of_error wide r prior resp err h0 hd]
      simp [TranslatesErrors, HasError_append_error]
    | ok u =>
      rw [Delete_of_ok wide r prior resp h0 hd]
      simp [TranslatesErrors, h0]
  · cases hg : d.client.GetResource (config.Config.Raw.Id.String wide) with
    | error err =>
      rw [DataSourceRead_of_error wide d config resp err h0 hg]
      simp [TranslatesErrors, HasError_append_error]
    | ok res =>
      rw [DataSourceRead_of_ok wide d config resp res h0 hg]
      simp [TranslatesErrors, h0]

/-- Instance of the preceding theorem on a service that refuses every
call, started from the empty response. -/
theorem errors_become_diagnostics_witness :
    HasError emptyResponse.Diagnostics = false ∧
    TranslatesErrors emptyResponse
      (PasswordAndDescriptionResource.Create allWidePrintable { client := failingClient }
        { Plan := { Raw := examplePlan } } emptyResponse) ∧
    TranslatesErrors emptyResponse
      (PasswordAndDescriptionResource.Read allWidePrintable { client := failingClient }
        { State := exampleStored } emptyResponse) ∧
    TranslatesErrors emptyResponse
      (PasswordAndDescriptionResource.Update allWidePrintable { client := failingClient }
        { Plan := { Raw := examplePlan } } emptyResponse) ∧
    TranslatesErrors emptyResponse
      (PasswordAndDescriptionResource.Delete allWidePrintable { client := failingClient }
        { State := exampleStored } emptyResponse) ∧
    TranslatesErrors emptyResponse
      (PasswordAndDescriptionDataSource.Read allWidePrintable { client := failingClient }
        { Config := { Raw := exampleStored } } emptyResponse) :=
  ⟨by decide,
    errors_become_diagnostics allWidePrintable { client := failingClient }
      { client := failingClient } { Plan := { Raw := examplePlan } } { State := exampleStored }
      { Config := { Raw := exampleStored } } emptyResponse (by decide)⟩

/-! ## What Update sends -/

/-- Update never reads the plan's folder: replacing it by any other value
leaves the calls made and the response unchanged. -/
theorem Update_ignores_folder (wide : Char → Bool) (r : PasswordAndDescriptionResource)
    (plan : PasswordAndDescriptionResourceModel) (folder : TfString) (resp : Response) :
    r.Update wide { Plan := { Raw := { plan with FolderParentId := folder } } } resp =
      r.Update wide { Plan := { Raw := plan } } resp := by
  by_cases h0 : HasError resp.Diagnostics = true
  · rw [Update_of_HasError wide r _ resp h0, Update_of_HasError wide r _ resp h0]
  · have h0' : HasError resp.Diagnostics = false := by simpa using h0
    cases hu : r.client.UpdateResource (plan.Id.String wide) (plan.Name.String wide)
        (plan.Username.String wide) (plan.URI.String wide) (plan.Password.String wide)
        (plan.Description.String wide) with
    | error err =>
      rw [Update_of_update_error wide r { Plan := { Raw := plan } } resp err h0' hu,
        Update_of_update_error wide r
          { Plan := { Raw := { plan with FolderParentId := folder } } } resp err h0' hu]
    | ok u =>
      cases hg : r.client.GetResource (plan.Id.String wide) with
      | error err =>
        rw [Update_of_refresh_error wide r { Plan := { Raw := plan } } resp err h0' hu hg,
          Update_of_refresh_error wide r
            { Plan := { Raw := { plan with FolderParentId := folder } } } resp err h0' hu hg]
      | ok res =>
        rw [Update_of_ok wide r { Plan := { Raw := plan } } resp res h0' hu hg,
          Update_of_ok wide r
            { Plan := { Raw := { plan with FolderParentId := folder } } } resp res h0' hu hg]

/-- C6, on the code: the stored example planned into folder-2, with nothing
else changed, makes Update send exactly what the unchanged plan sends, on every
service and from every initial response, so the folder is not passed on update.
On the example service, which still holds the resource in folder-1, Update
finishes without an error diagnostic and writes folder-1 to the state although
the plan says folder-2.  The sibling Create does pass the folder: the same two
plans make Create send different calls. -/
theorem Update_drops_folder_change :
    exampleMoved = { exampleStored with FolderParentId := TfString.known "folder-2" } ∧
    exampleMoved.FolderParentId ≠ exampleStored.FolderParentId ∧
    (∀ (wide : Char → Bool) (r : PasswordAndDescriptionResource) (resp : Response),
      r.Update wide { Plan := { Raw := exampleMoved } } resp =
        r.Update wide { Plan := { Raw := exampleStored } } resp) ∧
    HasError (PasswordAndDescriptionResource.Update allWidePrintable { client := exampleClient }
        { Plan := { Raw := exampleMoved } } emptyResponse).1.Diagnostics = false ∧
    (PasswordAndDescriptionResource.Update allWidePrintable { client := exampleClient }
        { Plan := { Raw := exampleMoved } } emptyResponse).1.State.Raw.map
          (fun m => m.FolderParentId) = some (TfString.known "folder-1") ∧
    (PasswordAndDescriptionResource.Create allWidePrintable { client := exampleClient }
        { Plan := { Raw := exampleMoved } } emptyResponse).2 ≠
      (PasswordAndDescriptionResource.Create allWidePrintable { client := exampleClient }
        { Plan := { Raw := exampleStored } } emptyResponse).2 := by
  refine ⟨rfl, by decide, ?_, by decide, by decide, by decide⟩
  intro wide r resp
  exact Update_ignores_folder wide r exampleStored (TfString.known "folder-2") resp

/-! ## Data source and resource read alike -/

/-- C9: the data source and the resource read the same way.  For every client,
input model and initial response, the data-source Read and the resource Read
return the same response and make the same call.  When `helper.GetResource`
succeeds both write the model made of the six returned values and the input's
id, so the state's name is the name returned by the service, not the one in the
configuration; when it fails both leave the state as it was and append the same
single error diagnostic. -/
theorem DataSourceRead_same_as_Read (wide : Char → Bool) (client : Client)
    (data : PasswordAndDescriptionResourceModel) (resp : Response) :
    PasswordAndDescriptionDataSource.Read wide { client := client }
        { Config := { Raw := data } } resp =
      PasswordAndDescriptionResource.Read wide { client := client } { State := data } resp ∧
    (∀ res, HasError resp.Diagnostics = false →
      client.GetResource (data.Id.String wide) = Except.ok res →
      (PasswordAndDescriptionDataSource.Read wide { client := client }
          { Config := { Raw := data } } resp).1.State.Raw =
        some { Name := TfString.known res.name
               FolderParentId := TfString.known res.folderParentID
               Username := TfString.known res.username
               URI := TfString.known res.uri
               Password := TfString.known res.password
               Description := TfString.known res.description
               Id := data.Id }) ∧
    (∀ err, HasError resp.Diagnostics = false →
      client.GetResource (data.Id.String wide) = Except.error err →
      (PasswordAndDescriptionDataSource.Read wide { client := client }
          { Config := { Raw := data } } resp).1 =
        { Diagnostics := resp.Diagnostics ++
            [{ Severity := Severity.Error
               Summary := "API Error when reading password-and-description resource with id " ++
                 data.Id.String wide
               Detail := err }]
          State := resp.State }) := by
  refine ⟨?_, ?_, ?_⟩
  · by_cases h0 : HasError resp.Diagnostics = true
    · rw [DataSourceRead_of_HasError wide _ _ resp h0, Read_of_HasError wide _ _ resp h0]
    · have h0' : HasError resp.Diagnostics = false := by simpa using h0
      cases hg : client.GetResource (data.Id.String wide) with
      | error err =>
        rw [DataSourceRead_of_error wide { client := client } { Config := { Raw := data } }
              resp err h0' hg,
            Read_of_error wide { client := client } { State := data } resp err h0' hg]
      | ok res =>
        rw [DataSourceRead_of_ok wide { client := client } { Config := { Raw := data } }
              resp res h0' hg,
            Read_of_ok wide { client := client } { State := data } resp res h0' hg]
  · intro res h0 hg
    rw [DataSourceRead_of_ok wide { client := client } { Config := { Raw := data } }
          resp res h0 hg]
  · intro err h0 hg
    rw [DataSourceRead_of_error wide { client := client } { Config := { Raw := data } }
          resp err h0 hg]

/-- Instance of the preceding theorem: a configuration naming the
resource `other` with id `0a1b` reads the name `db` from the example service,
and gets one error diagnostic from the refusing service. -/
theorem DataSourceRead_same_as_Read_witness :
    (PasswordAndDescriptionDataSource.Read allWidePrintable { client := exampleClient }
        { Config := { Raw := { exampleStored with Name := TfString.known "other" } } }
        emptyResponse).1.State.Raw =
      some { Name := TfString.known "db"
             FolderParentId := TfString.known "folder-1"
             Username := TfString.known "admin"
             URI := TfString.known "https://db.example"
             Password := TfString.known "s3cret"
             Description := TfString.known "notes"
             Id := TfString.known "0a1b" } ∧
    (PasswordAndDescriptionDataSource.Read allWidePrintable { client := failingClient }
        { Config := { Raw := { exampleStored with Name := TfString.known "other" } } }
        emptyResponse).1 =
      { Diagnostics :=
          [{ Severity := Severity.Error
             Summary :=
               "API Error when reading password-and-description resource with id \"0a1b\""
             Detail := "boom" }]
        State := { Raw := none } } :=
  ⟨(DataSourceRead_same_as_Read allWidePrintable exampleClient
      { exampleStored with Name := TfString.known "other" } emptyResponse).2.1
      { folderParentID := "folder-1", name := "db", username := "admin",
        uri := "https://db.example", password := "s3cret", description := "notes" }
      (by decide) rfl,
    (DataSourceRead_same_as_Read allWidePrintable failingClient
      { exampleStored with Name := TfString.known "other" } emptyResponse).2.2
      "boom" (by decide) rfl⟩

/-! ## Secrets and the provider's own diagnostics -/

/-- C10: secrets do not reach the provider's own diagnostics.  Take two models
that differ only in password and description, run the same callback on each
from the same initial response, and let the external calls answer alike in the
two runs (the create call returns the same id or the same error, the update,
get and delete calls fail with the same error or both succeed).  Then the
diagnostics of Create, resource Read, Update, Delete and data-source Read are
identical in the two runs. -/
theorem diagnostics_independent_of_secrets (wide : Char → Bool) (c1 c2 : Client)
    (m1 m2 : PasswordAndDescriptionResourceModel) (resp : Response)
    (hm : SameExceptSecrets m1 m2)
    (hcreate :
      c1.CreateResource (m1.FolderParentId.String wide) (m1.Name.String wide)
          (m1.Username.String wide) (m1.URI.String wide) (m1.Password.String wide)
          (m1.Description.String wide) =
        c2.CreateResource (m2.FolderParentId.String wide) (m2.Name.String wide)
          (m2.Username.String wide) (m2.URI.String wide) (m2.Password.String wide)
          (m2.Description.String wide))
    (hupdate :
      errOf (c1.UpdateResource (m1.Id.String wide) (m1.Name.String wide)
          (m1.Username.String wide) (m1.URI.String wide) (m1.Password.String wide)
          (m1.Description.String wide)) =
        errOf (c2.UpdateResource (m2.Id.String wide) (m2.Name.String wide)
          (m2.Username.String wide) (m2.URI.String wide) (m2.Password.String wide)
          (m2.Description.String wide)))
    (hget : ∀ k, errOf (c1.GetResource k) = errOf (c2.GetResource k))
    (hdelete : ∀ k, errOf (c1.DeleteResource k) = errOf (c2.DeleteResource k)) :
    (PasswordAndDescriptionResource.Create wide { client := c1 }
        { Plan := { Raw := m1 } } resp).1.Diagnostics =
      (PasswordAndDescriptionResource.Create wide { client := c2 }
        { Plan := { Raw := m2 } } resp).1.Diagnostics ∧
    (PasswordAndDescriptionResource.Read wide { client := c1 }
        { State := m1 } resp).1.Diagnostics =
      (PasswordAndDescriptionResource.Read wide { client := c2 }
        { State := m2 } resp).1.Diagnostics ∧
    (PasswordAndDescriptionResource.Update wide { client := c1 }
        { Plan := { Raw := m1 } } resp).1.Diagnostics =
      (PasswordAndDescriptionResource.Update wide { client := c2 }
        { Plan := { Raw := m2 } } resp).1.Diagnostics ∧
    (PasswordAndDescriptionResource.Delete wide { client := c1 }
        { State := m1 } resp).1.Diagnostics =
      (PasswordAndDescriptionResource.Delete wide { client := c2 }
        { State := m2 } resp).1.Diagnostics ∧
    (PasswordAndDescriptionDataSource.Read wide { client := c1 }
        { Config := { Raw := m1 } } resp).1.Diagnostics =
      (PasswordAndDescriptionDataSource.Read wide { client := c2 }
        { Config := { Raw := m2 } } resp).1.Diagnostics := by
  obtain ⟨hname, -, -, -, hidm⟩ := hm
  by_cases h0 : HasError resp.Diagnostics = true
  · simp [Create_of_HasError, Read_of_HasError, Update_of_HasError, Delete_of_HasError,
      DataSourceRead_of_HasError, h0]
  · have h0' : HasError resp.Diagnostics = false := by simpa using h0
    refine ⟨?_, ?_, ?_, ?_, ?_⟩
    · cases hc1 : c1.CreateResource (m1.FolderParentId.String wide) (m1.Name.String wide)
          (m1.Username.String wide) (m1.URI.String wide) (m1.Password.String wide)
          (m1.Description.String wide) with
      | error err =>
        have hc2 := hcreate ▸ hc1
        rw [Create_of_create_error wide { client := c1 } { Plan := { Raw := m1 } } resp err h0' hc1,
          Create_of_create_error wide { client := c2 } { Plan := { Raw := m2 } } resp err h0' hc2]
        simp [hname]
      | ok id =>
        have hc2 := hcreate ▸ hc1
        rcases errOf_eq_cases _ _ (hget ((TfString.known id).String wide)) with
          ⟨err, hg1, hg2⟩ | ⟨res1, res2, hg1, hg2⟩
        · rw [Create_of_refresh_error wide { client := c1 } { Plan := { Raw := m1 } } resp id
              err h0' hc1 hg1,
            Create_of_refresh_error wide { client := c2 } { Plan := { Raw := m2 } } resp id
              err h0' hc2 hg2]
          simp [hname]
        · rw [Create_of_ok wide { client := c1 } { Plan := { Raw := m1 } } resp id res1 h0'
              hc1 hg1,
            Create_of_ok wide { client := c2 } { Plan := { Raw := m2 } } resp id res2 h0'
              hc2 hg2]
    · rcases errOf_eq_cases _ _ (hget (m1.Id.String wide)) with
        ⟨err, hg1, hg2⟩ | ⟨res1, res2, hg1, hg2⟩
      · rw [hidm] at hg2
        rw [Read_of_error wide { client := c1 } { State := m1 } resp err h0' hg1,
          Read_of_error wide { client := c2 } { State := m2 } resp err h0' hg2]
        simp [hidm]
      · rw [hidm] at hg2
        rw [Read_of_ok wide { client := c1 } { State := m1 } resp res1 h0' hg1,
          Read_of_ok wide { client := c2 } { State := m2 } resp res2 h0' hg2]
    · rcases errOf_eq_cases _ _ hupdate with ⟨err, hu1, hu2⟩ | ⟨u1, u2, hu1, hu2⟩
      · rw [Update_of_update_error wide { client := c1 } { Plan := { Raw := m1 } } resp err h0'
            hu1,
          Update_of_update_error wide { client := c2 } { Plan := { Raw := m2 } } resp err h0'
            hu2]
        simp [hname, hidm]
      · rcases errOf_eq_cases _ _ (hget (m1.Id.String wide)) with
          ⟨err, hg1, hg2⟩ | ⟨res1, res2, hg1, hg2⟩
        · rw [hidm] at hg2
          rw [Update_of_refresh_error wide { client := c1 } { Plan := { Raw := m1 } } resp err
              h0' hu1 hg1,
            Update_of_refresh_error wide { client := c2 } { Plan := { Raw := m2 } } resp err
              h0' hu2 hg2]
          simp [hname, hidm]
        · rw [hidm] at hg2
          rw [Update_of_ok wide { client := c1 } { Plan := { Raw := m1 } } resp res1 h0' hu1 hg1,
            Update_of_ok wide { client := c2 } { Plan := { Raw := m2 } } resp res2 h0' hu2 hg2]
    · rcases errOf_eq_cases _ _ (hdelete (m1.Id.String wide)) with
        ⟨err, hd1, hd2⟩ | ⟨u1, u2, hd1, hd2⟩
      · rw [hidm] at hd2
        rw [Delete_of_error wide { client := c1 } { State := m1 } resp err h0' hd1,
          Delete_of_error wide { client := c2 } { State := m2 } resp err h0' hd2]
        simp [hname, hidm]
      · rw [hidm] at hd2
        rw [Delete_of_ok wide { client := c1 } { State := m1 } resp h0' hd1,
          Delete_of_ok wide { client := c2 } { State := m2 } resp h0' hd2]
    · rcases errOf_eq_cases _ _ (hget (m1.Id.String wide)) with
        ⟨err, hg1, hg2⟩ | ⟨res1, res2, hg1, hg2⟩
      · rw [hidm] at hg2
        rw [DataSourceRead_of_error wide { client := c1 } { Config := { Raw := m1 } } resp err
            h0' hg1,
          DataSourceRead_of_error wide { client := c2 } { Config := { Raw := m2 } } resp err
            h0' hg2]
        simp [hidm]
      · rw [hidm] at hg2
        rw [DataSourceRead_of_ok wide { client := c1 } { Config := { Raw := m1 } } resp res1
            h0' hg1,
          DataSourceRead_of_ok wide { client := c2 } { Config := { Raw := m2 } } resp res2
            h0' hg2]

/-- Instance of the preceding theorem: the stored example and
the same resource with another password and description, both on the service
that refuses every call with `boom`. -/
theorem diagnostics_independent_of_secrets_witness :
    SameExceptSecrets exampleStored exampleRotated ∧
    exampleStored.Password ≠ exampleRotated.Password ∧
    (PasswordAndDescriptionResource.Create allWidePrintable { client := failingClient }
        { Plan := { Raw := exampleStored } } emptyResponse).1.Diagnostics =
      (PasswordAndDescriptionResource.Create allWidePrintable { client := failingClient }
        { Plan := { Raw := exampleRotated } } emptyResponse).1.Diagnostics ∧
    (PasswordAndDescriptionResource.Read allWidePrintable { client := failingClient }
        { State := exampleStored } emptyResponse).1.Diagnostics =
      (PasswordAndDescriptionResource.Read allWidePrintable { client := failingClient }
        { State := exampleRotated } emptyResponse).1.Diagnostics ∧
    (PasswordAndDescriptionResource.Update allWidePrintable { client := failingClient }
        { Plan := { Raw := exampleStored } } emptyResponse).1.Diagnostics =
      (PasswordAndDescriptionResource.Update allWidePrintable { client := failingClient }
        { Plan := { Raw := exampleRotated } } emptyResponse).1.Diagnostics ∧
    (PasswordAndDescriptionResource.Delete allWidePrintable { client := failingClient }
        { State := exampleStored } emptyResponse).1.Diagnostics =
      (PasswordAndDescriptionResource.Delete allWidePrintable { client := failingClient }
        { State := exampleRotated } emptyResponse).1.Diagnostics ∧
    (PasswordAndDescriptionDataSource.Read allWidePrintable { client := failingClient }
        { Config := { Raw := exampleStored } } emptyResponse).1.Diagnostics =
      (PasswordAndDescriptionDataSource.Read allWidePrintable { client := failingClient }
        { Config := { Raw := exampleRotated } } emptyResponse).1.Diagnostics :=
  ⟨by decide, by decide,
    diagnostics_independent_of_secrets allWidePrintable failingClient failingClient
      exampleStored exampleRotated emptyResponse (by decide) rfl rfl
      (fun _ => rfl) (fun _ => rfl)⟩

/-! ## Arguments at concrete inputs -/

/-- C1, on the code: for the example plan, whose six user attributes are the
known strings folder-1, db, admin, https://db.example, s3cret and notes, the
arguments Create passes to `helper.CreateResource` are those values each
wrapped in double quotes, on every service; they are not the plain values. -/
theorem Create_passes_quoted_values :
    ∀ (wide : Char → Bool) (r : PasswordAndDescriptionResource),
      ((r.Create wide { Plan := { Raw := examplePlan } } emptyResponse).2.head?).map
          (fun c => c.call) =
        some (Call.CreateResource "\"folder-1\"" "\"db\"" "\"admin\"" "\"https://db.example\""
          "\"s3cret\"" "\"notes\"") ∧
      ((r.Create wide { Plan := { Raw := examplePlan } } emptyResponse).2.head?).map
          (fun c => c.call) ≠
        some (Call.CreateResource "folder-1" "db" "admin" "https://db.example"
          "s3cret" "notes") := by
  intro wide r
  have h := Create_first_call wide r { Plan := { Raw := examplePlan } } emptyResponse rfl
  have hq : ((r.Create wide { Plan := { Raw := examplePlan } } emptyResponse).2.head?).map
      (fun c => c.call) =
      some (Call.CreateResource "\"folder-1\"" "\"db\"" "\"admin\"" "\"https://db.example\""
        "\"s3cret\"" "\"notes\"") := h
  refine ⟨hq, ?_⟩
  rw [hq]
  decide

/-- C2, on the code: for the stored example, whose id is the known string
0a1b, the key handed to `helper.GetResource` by Refresh and by the data-source
Read, to `helper.UpdateResource` by Update and to `client.DeleteResource` by
Delete is that id wrapped in double quotes, which is not the id. -/
theorem id_key_is_quoted :
    ∀ (wide : Char → Bool) (client : Client),
      (PasswordAndDescriptionResource.Refresh wide { client := client } exampleStored).2.map
          (fun c => c.call) = [Call.GetResource "\"0a1b\""] ∧
      ((PasswordAndDescriptionResource.Update wide { client := client }
          { Plan := { Raw := exampleStored } } emptyResponse).2.head?).map (fun c => c.call) =
        some (Call.UpdateResource "\"0a1b\"" "\"db\"" "\"admin\"" "\"https://db.example\""
          "\"s3cret\"" "\"notes\"") ∧
      (PasswordAndDescriptionResource.Delete wide { client := client }
          { State := exampleStored } emptyResponse).2.map (fun c => c.call) =
        [Call.DeleteResource "\"0a1b\""] ∧
      (PasswordAndDescriptionDataSource.Read wide { client := client }
          { Config := { Raw := exampleStored } } emptyResponse).2.map (fun c => c.call) =
        [Call.GetResource "\"0a1b\""] ∧
      exampleStored.Id = TfString.known "0a1b" ∧ "\"0a1b\"" ≠ "0a1b" := by
  intro wide client
  exact ⟨Refresh_calls wide { client := client } exampleStored,
    Update_first_call wide { client := client } { Plan := { Raw := exampleStored } }
      emptyResponse rfl,
    Delete_calls wide { client := client } { State := exampleStored } emptyResponse rfl,
    DataSourceRead_calls wide { client := client } { Config := { Raw := exampleStored } }
      emptyResponse rfl,
    rfl, by decide⟩

/-- C7, on the code: for provider version 1.0.0 and the example configuration
with endpoint https://passbolt.example, private key PGP-KEY and password
hunter2, `api.NewClient` receives the user agent
PassboltTerraformProvider/1.0.0 and then the endpoint, the private key and the
password each wrapped in double quotes, not the configured values. -/
theorem Configure_passes_quoted_credentials :
    ∀ (wide : Char → Bool) (NewClient : String → String → String → String → Except String Client),
      (PassboltProvider.Configure wide NewClient { version := "1.0.0" }
          { Config := exampleProviderConfig } emptyProviderResponse).2.map (fun c => c.call) =
        [Call.NewClient "PassboltTerraformProvider/1.0.0" "\"https://passbolt.example\""
          "\"PGP-KEY\"" "\"hunter2\""] ∧
      (PassboltProvider.Configure wide NewClient { version := "1.0.0" }
          { Config := exampleProviderConfig } emptyProviderResponse).2.map (fun c => c.call) ≠
        [Call.NewClient "PassboltTerraformProvider/1.0.0" "https://passbolt.example"
          "PGP-KEY" "hunter2"] := by
  intro wide NewClient
  have h := Configure_calls wide NewClient { version := "1.0.0" }
    { Config := exampleProviderConfig } emptyProviderResponse rfl
  have hq : (PassboltProvider.Configure wide NewClient { version := "1.0.0" }
      { Config := exampleProviderConfig } emptyProviderResponse).2.map (fun c => c.call) =
      [Call.NewClient "PassboltTerraformProvider/1.0.0" "\"https://passbolt.example\""
        "\"PGP-KEY\"" "\"hunter2\""] := h
  refine ⟨hq, ?_⟩
  rw [hq]
  decide

end Passbolt
